import Mathlib

/-!
Shallow embedding of the trip-planner backend
(`src/backend/src/index.ts` and `src/backend/src/clients/CalendarGenerator.ts`).

Modelling conventions:
* JS `Date` values are represented by civil components (`CivilDateTime`).
  The server's local timezone is taken to be UTC, so `toISOString` reads the
  same components back.  `Date.setHours` with an out-of-range hour normalizes
  by rolling into following days, which we model with `addDaysCivil`.
* Machine numbers appearing in the modelled paths (activity durations, day
  and activity indices, clock readings) are natural numbers; the itinerary
  schema requires `durationInHours ≥ 1` and the modelled arithmetic never
  goes negative.
* Fallible JS code (property access on `undefined` throwing a `TypeError`,
  `toISOString` on an invalid date) is modelled with `Option`/`Except`.
* `parseDateTime` / day-date parsing model the multi-argument `Date`
  constructor's two-digit-year remap (`jsFullYear`: 0–99 become
  1900–1999) and guard that the numeric components are in civil range,
  failing otherwise; JS would instead normalize out-of-range components.
  All data reaching these parsers in the modelled flows is validated
  (zod `.date()`, locale-rendered components), so the normalization
  difference is never exercised by the claims below.
-/

namespace Travel

/-- A civil calendar date (year, month 1..12, day 1..31). -/
structure CivilDate where
  y : Nat
  m : Nat
  d : Nat
deriving DecidableEq

/-- A civil date-time with seconds precision, in the server's timezone
(taken to be UTC). -/
structure CivilDateTime where
  date : CivilDate
  hh : Nat
  mi : Nat
  ss : Nat
deriving DecidableEq

/-- Gregorian leap-year rule (as implemented by the JS `Date` calendar). -/
def isLeapYear (y : Nat) : Bool :=
  (y % 4 == 0 && y % 100 != 0) || y % 400 == 0

/-- Days in a month of the Gregorian calendar. -/
def daysInMonth (y m : Nat) : Nat :=
  if m = 2 then (if isLeapYear y then 29 else 28)
  else if m = 4 ∨ m = 6 ∨ m = 9 ∨ m = 11 then 30
  else 31

/-- The calendar day after `d`. -/
def nextDayCivil (d : CivilDate) : CivilDate :=
  if d.d < daysInMonth d.y d.m then ⟨d.y, d.m, d.d + 1⟩
  else if d.m < 12 then ⟨d.y, d.m + 1, 1⟩
  else ⟨d.y + 1, 1, 1⟩

/-- Add `k` calendar days to a date. -/
def addDaysCivil (d : CivilDate) : Nat → CivilDate
  | 0 => d
  | k + 1 => nextDayCivil (addDaysCivil d k)

/-- Models JS `date.setHours(h, 0, 0, 0)` applied to a `Date` anchored at
midnight of `base`: an hour count `h ≥ 24` rolls into following days
(JS `Date` normalizes out-of-range components). -/
def jsSetHoursFrom (base : CivilDate) (h : Nat) : CivilDateTime :=
  ⟨addDaysCivil base (h / 24), h % 24, 0, 0⟩

/-- Strict lexicographic order on civil dates. -/
def civilLt (a b : CivilDate) : Prop :=
  a.y < b.y ∨ (a.y = b.y ∧ (a.m < b.m ∨ (a.m = b.m ∧ a.d < b.d)))

instance (a b : CivilDate) : Decidable (civilLt a b) := by
  unfold civilLt
  exact inferInstance

theorem civilLt_nextDay (d : CivilDate) : civilLt d (nextDayCivil d) := by
  unfold civilLt nextDayCivil
  split
  · right
    exact ⟨rfl, Or.inr ⟨rfl, Nat.lt_succ_self _⟩⟩
  · split
    · right
      exact ⟨rfl, Or.inl (Nat.lt_succ_self _)⟩
    · left
      exact Nat.lt_succ_self _

theorem civilLt_trans {a b c : CivilDate} (h1 : civilLt a b) (h2 : civilLt b c) :
    civilLt a c := by
  unfold civilLt at *
  omega

theorem civilLt_addDaysCivil (d : CivilDate) (k : Nat) (hk : 1 ≤ k) :
    civilLt d (addDaysCivil d k) := by
  induction k with
  | zero => omega
  | succ n ih =>
    rcases Nat.eq_or_lt_of_le hk with h | h
    · have : n = 0 := by omega
      subst this
      exact civilLt_nextDay d
    · have hn : 1 ≤ n := by omega
      exact civilLt_trans (ih hn) (civilLt_nextDay _)

/-! ### Decimal numerals

JS stringifies numbers in decimal (template-literal interpolation,
`toLocaleDateString`) and parses them with `parseInt` / `Number`.
`natCharsAux` is fuel-structured so that it reduces in the kernel. -/

/-- Decimal digit characters of `n` (most significant first), with `fuel ≥ n`. -/
def natCharsAux : Nat → Nat → List Char
  | 0, _ => []
  | _ + 1, 0 => []
  | fuel + 1, n + 1 =>
    natCharsAux fuel ((n + 1) / 10) ++ [Nat.digitChar ((n + 1) % 10)]

/-- The decimal numeral of `n`, as JS renders a number. -/
def natChars (n : Nat) : List Char :=
  if n = 0 then ['0'] else natCharsAux n n

/-- The decimal numeral of `n` as a string. -/
def renderNat (n : Nat) : String := ⟨natChars n⟩

/-- Two-digit zero padding (locale `2-digit` rendering). -/
def pad2 (n : Nat) : String := if n < 10 then ⟨'0' :: natChars n⟩ else ⟨natChars n⟩

/-- Four-digit zero padding (the year field of `toISOString`). -/
def pad4 (n : Nat) : String :=
  ⟨List.replicate (4 - (natChars n).length) '0' ++ natChars n⟩

/-- Value of a most-significant-first digit-character list (Horner). -/
def digitsToNat (ds : List Char) : Nat :=
  ds.foldl (fun acc c => 10 * acc + (c.toNat - 48)) 0

/-- Models JS `parseInt` on the strings arising here: reads the leading run
of decimal digits; no digits means `NaN`, modelled as `none`. -/
def parseIntNat (l : List Char) : Option Nat :=
  let ds := l.takeWhile Char.isDigit
  if ds.isEmpty then none else some (digitsToNat ds)

/-- Models JS `Number(·)` on the non-empty strings arising here: the whole
string must be a decimal numeral, else `NaN` (modelled as `none`). -/
def jsNumberNat (l : List Char) : Option Nat :=
  if l.isEmpty then none
  else if l.all Char.isDigit then some (digitsToNat l) else none

/-- Models JS `String.prototype.split` with a single-character separator. -/
def splitChar (sep : Char) : List Char → List (List Char)
  | [] => [[]]
  | c :: cs =>
    if c = sep then [] :: splitChar sep cs
    else
      match splitChar sep cs with
      | [] => [[c]]
      | h :: t => (c :: h) :: t

/-- Models one JS `String.prototype.replace(/c/g, r)` pass for a
single-character pattern `c` and replacement `r`. -/
def replaceAllChar (c : Char) (r : List Char) : List Char → List Char
  | [] => []
  | x :: xs => (if x = c then r else [x]) ++ replaceAllChar c r xs

/-- Whether `pat` is an initial run of `l`. -/
def listStartsWith : List Char → List Char → Bool
  | [], _ => true
  | _ :: _, [] => false
  | p :: ps, c :: cs => p == c && listStartsWith ps cs

/-- Models JS `String.prototype.replace(pat, rep)` with a string pattern:
only the first occurrence is replaced. -/
def replaceFirstList (pat rep : List Char) : List Char → List Char
  | [] => []
  | c :: cs =>
    if listStartsWith pat (c :: cs) then rep ++ (c :: cs).drop pat.length
    else c :: replaceFirstList pat rep cs

/-- `duration.replace('PT', '').toLowerCase()` from `getFlightOptions`. -/
def jsStripPTLower (s : String) : String :=
  ⟨(replaceFirstList ['P', 'T'] [] s.data).map Char.toLower⟩

/-- `escapeICSText` from `CalendarGenerator.ts` line 54: four chained global
single-character replacements, backslashes first. -/
def escapeICSText (s : String) : String :=
  ⟨replaceAllChar '\n' ['\\', 'n']
    (replaceAllChar ';' ['\\', ';']
      (replaceAllChar ',' ['\\', ',']
        (replaceAllChar '\\' ['\\', '\\'] s.data)))⟩

/-! ### Calendar generator data model (`CalendarGenerator.ts`) -/

/-- One itinerary activity (zod `ItineraryActivity`; `durationInHours ≥ 1`,
modelled as a natural number). -/
structure Activity where
  activity : String
  location : String
  durationInHours : Nat
deriving DecidableEq

/-- One itinerary day.  `dayDate` is the validated `YYYY-MM-DD` string; a
missing slot and an empty slot are both possible. -/
structure ItineraryDay where
  dayDate : String
  dayNumber : Nat
  morning : Option (List Activity)
  afternoon : Option (List Activity)
  evening : Option (List Activity)
deriving DecidableEq

/-- A city with short name and IATA code. -/
structure CityInfo where
  shortName : String
  iata : String
deriving DecidableEq

/-- One rendered flight endpoint (display date, display time, airport). -/
structure FlightEndpointInfo where
  date : String
  time : String
  airport : String
deriving DecidableEq

/-- One rendered flight leg (the `FlightInfo` zod schema). -/
structure FlightInfo where
  price : String
  duration : String
  airline : String
  departure : FlightEndpointInfo
  arrival : FlightEndpointInfo
deriving DecidableEq

/-- Outbound/return pair; either leg may be absent.  The source field
`return` is a reserved word here, so it is named `ret`. -/
structure FlightBundle where
  outbound : Option FlightInfo
  ret : Option FlightInfo
deriving DecidableEq

/-- The itinerary part of `CalendarData`. -/
structure ItineraryData where
  days : List ItineraryDay
  arrivalCity : CityInfo
  returnCity : CityInfo
deriving DecidableEq

/-- Input of `generateICSContent` (`CalendarData` in `CalendarGenerator.ts`). -/
structure CalendarData where
  itinerary : ItineraryData
  city : String
  dates : String
  flights : Option FlightBundle
deriving DecidableEq

/-- One derived calendar event (`CalendarEvent` in `CalendarGenerator.ts`). -/
structure CalendarEvent where
  uid : String
  summary : String
  description : String
  location : String
  dtstart : String
  dtend : String
deriving DecidableEq

/-- The generator's reads of the ambient clock: `Date.now()` for event uids
and `new Date()` for `DTSTAMP`. -/
structure Clock where
  nowMs : Nat
  now : CivilDateTime
deriving DecidableEq

/-- `formatDateForICS`: `toISOString` with `-`, `:` and the millisecond part
removed, i.e. `YYYYMMDDTHHMMSSZ` (UTC, which equals the modelled civil
components). -/
def formatDateForICS (t : CivilDateTime) : String :=
  pad4 t.date.y ++ pad2 t.date.m ++ pad2 t.date.d ++ "T" ++
    pad2 t.hh ++ pad2 t.mi ++ pad2 t.ss ++ "Z"

/-- `MakeFullYear` of the multi-argument JS `Date` constructor
(`new Date(year, ...)`): a year from 0 to 99 is taken as 1900 + year. -/
def jsFullYear (y : Nat) : Nat := if y ≤ 99 then 1900 + y else y

/-- `parseDateTime`: split the UK display date on `/` and the time on `:`,
numeric-parse the pieces and rebuild a date-time through the multi-argument
`Date` constructor (with its two-digit-year remap).  Components out of
civil range are rejected (see the module comment on JS normalization). -/
def parseDateTime (date time : String) : Option CivilDateTime :=
  let dparts := splitChar '/' date.data
  let tparts := splitChar ':' time.data
  match parseIntNat (dparts.getD 0 []), parseIntNat (dparts.getD 1 []),
      parseIntNat (dparts.getD 2 []), parseIntNat (tparts.getD 0 []),
      parseIntNat (tparts.getD 1 []) with
  | some d, some m, some y, some h, some mi =>
    if 1 ≤ m ∧ m ≤ 12 ∧ 1 ≤ d ∧ d ≤ daysInMonth (jsFullYear y) m ∧ h < 24 ∧ mi < 60
    then some ⟨⟨jsFullYear y, m, d⟩, h, mi, 0⟩ else none
  | _, _, _, _, _ => none

/-- The generator's day-date parsing: `day.dayDate.split('-').map(Number)`
then `new Date(year, month - 1, dayNum)` (again with the constructor's
two-digit-year remap), guarded to civil range. -/
def parseDayDate (s : String) : Option CivilDate :=
  let parts := splitChar '-' s.data
  match jsNumberNat (parts.getD 0 []), jsNumberNat (parts.getD 1 []),
      jsNumberNat (parts.getD 2 []) with
  | some y, some m, some d =>
    if 1 ≤ m ∧ m ≤ 12 ∧ 1 ≤ d ∧ d ≤ daysInMonth (jsFullYear y) m
    then some ⟨jsFullYear y, m, d⟩ else none
  | _, _, _ => none

/-- The event built for one activity of one slot (`CalendarGenerator.ts`
lines 100–113 and the two analogous blocks): start at
`slotBase + index * durationInHours` hours past the day's midnight, end
`durationInHours` hours after the (normalized) start hour. -/
def mkSlotEvent (slotLabel emoji slotWord : String) (slotBase : Nat)
    (dayIndex : Nat) (dayDate : CivilDate) (clock : Clock)
    (index : Nat) (a : Activity) : CalendarEvent :=
  let startTime := jsSetHoursFrom dayDate (slotBase + index * a.durationInHours)
  let endTime := jsSetHoursFrom startTime.date (startTime.hh + a.durationInHours)
  { uid := slotLabel ++ "-" ++ renderNat dayIndex ++ "-" ++ renderNat index ++
      "-" ++ renderNat clock.nowMs ++ "@travel-itinerary",
    summary := emoji ++ " " ++ a.activity,
    description := slotWord ++ " activity in " ++ a.location ++
      "\nDuration: " ++ renderNat a.durationInHours ++ " hours",
    location := a.location,
    dtstart := formatDateForICS startTime,
    dtend := formatDateForICS endTime }

/-- `forEach` with index over one slot's activity list. -/
def slotEvents (slotLabel emoji slotWord : String) (slotBase : Nat)
    (dayIndex : Nat) (dayDate : CivilDate) (clock : Clock) :
    Nat → List Activity → List CalendarEvent
  | _, [] => []
  | index, a :: rest =>
    mkSlotEvent slotLabel emoji slotWord slotBase dayIndex dayDate clock index a ::
      slotEvents slotLabel emoji slotWord slotBase dayIndex dayDate clock (index + 1) rest

/-- Events of one itinerary day: morning (base 9), afternoon (base 13),
evening (base 18); an absent slot contributes nothing (the
`day.morning && day.morning.length > 0` guard). -/
def dayEvents (clock : Clock) (dayIndex : Nat) (day : ItineraryDay) :
    Option (List CalendarEvent) := do
  let dd ← parseDayDate day.dayDate
  pure (slotEvents "morning" "🌅" "Morning" 9 dayIndex dd clock 0 (day.morning.getD []) ++
        slotEvents "afternoon" "☀️" "Afternoon" 13 dayIndex dd clock 0 (day.afternoon.getD []) ++
        slotEvents "evening" "🌙" "Evening" 18 dayIndex dd clock 0 (day.evening.getD []))

/-- `days.forEach((day, dayIndex) => ...)`. -/
def allDayEvents (clock : Clock) : Nat → List ItineraryDay → Option (List CalendarEvent)
  | _, [] => some []
  | dayIndex, day :: rest => do
    let evs ← dayEvents clock dayIndex day
    let evsRest ← allDayEvents clock (dayIndex + 1) rest
    pure (evs ++ evsRest)

/-- The event built for one flight leg (`CalendarGenerator.ts` lines 62–90).
`parseDateTime` failure models the `RangeError` a JS `toISOString` on an
invalid date would throw. -/
def flightEvent (clock : Clock) (city : String) (isOutbound : Bool)
    (flight : FlightInfo) : Option CalendarEvent := do
  let departureDateTime ← parseDateTime flight.departure.date flight.departure.time
  let arrivalDateTime ← parseDateTime flight.arrival.date flight.arrival.time
  pure
    { uid := (if isOutbound then "outbound-flight-" else "return-flight-") ++
        renderNat clock.nowMs ++ "@travel-itinerary",
      summary := "✈️ " ++ (if isOutbound then "Outbound" else "Return") ++
        " Flight - " ++ flight.airline,
      description :=
        (if isOutbound then "Flight to " ++ city else "Return flight from " ++ city) ++
          "\nAirline: " ++ flight.airline ++ "\nDuration: " ++ flight.duration ++
          "\nPrice: " ++ flight.price,
      location := flight.departure.airport ++ " → " ++ flight.arrival.airport,
      dtstart := formatDateForICS departureDateTime,
      dtend := formatDateForICS arrivalDateTime }

/-- The flight section of the event list: outbound first, then return,
each only when present. -/
def buildFlightEvents (clock : Clock) (city : String) :
    Option FlightBundle → Option (List CalendarEvent)
  | none => some []
  | some fb => do
    let l1 ← match fb.outbound with
      | none => pure ([] : List CalendarEvent)
      | some f => do
        let ev ← flightEvent clock city true f
        pure [ev]
    let l2 ← match fb.ret with
      | none => pure ([] : List CalendarEvent)
      | some f => do
        let ev ← flightEvent clock city false f
        pure [ev]
    pure (l1 ++ l2)

/-- The full event list: flight events, then activity events in day order. -/
def eventsOf (data : CalendarData) (clock : Clock) : Option (List CalendarEvent) := do
  let flightEvs ← buildFlightEvents clock data.city data.flights
  let dayEvs ← allDayEvents clock 0 data.itinerary.days
  pure (flightEvs ++ dayEvs)

/-- One serialized `VEVENT` block (`CalendarGenerator.ts` lines 163–182);
`escapeICSText` is applied to summary, description and location, and
`DTSTAMP` is the generation instant. -/
def serializeEvent (clock : Clock) (e : CalendarEvent) : String :=
  "BEGIN:VEVENT\n" ++
  "UID:" ++ e.uid ++ "\n" ++
  "DTSTART:" ++ e.dtstart ++ "\n" ++
  "DTEND:" ++ e.dtend ++ "\n" ++
  "SUMMARY:" ++ escapeICSText e.summary ++ "\n" ++
  "DESCRIPTION:" ++ escapeICSText e.description ++ "\n" ++
  "LOCATION:" ++ escapeICSText e.location ++ "\n" ++
  "DTSTAMP:" ++ formatDateForICS clock.now ++ "\n" ++
  "END:VEVENT\n"

/-- The calendar document header. -/
def icsHeader : String :=
  "BEGIN:VCALENDAR\nVERSION:2.0\nPRODID:-//Travel Itinerary//EN\nCALSCALE:GREGORIAN\n"

/-- `generateICSContent` (`CalendarGenerator.ts` lines 58–187, identical in
logic to `createICSContent` in `index.ts` lines 225–354).  `none` models a
thrown exception. -/
def generateICSContent (data : CalendarData) (clock : Clock) : Option String := do
  let events ← eventsOf data clock
  pure (icsHeader ++ String.join (events.map (serializeEvent clock)) ++ "END:VCALENDAR")

/-! ### Flight search adapter (`index.ts` lines 138–206)

The Amadeus response shapes follow `types/amadeus.ts`.  A segment endpoint's
`at` ISO timestamp is modelled by the civil components of the `Date` the
code builds from it (field `instant`). -/

/-- A flight segment endpoint: IATA code and timestamp. -/
structure SegmentEndpoint where
  iataCode : String
  instant : CivilDateTime
deriving DecidableEq

/-- One flight segment. -/
structure FlightSegment where
  departure : SegmentEndpoint
  arrival : SegmentEndpoint
  carrierCode : String
deriving DecidableEq

/-- One offer itinerary (one direction of travel). -/
structure OfferItinerary where
  duration : String
  segments : List FlightSegment
deriving DecidableEq

/-- An offer's price block. -/
structure OfferPrice where
  total : String
  currency : String
deriving DecidableEq

/-- One flight offer. -/
structure FlightOffer where
  itineraries : List OfferItinerary
  price : OfferPrice
deriving DecidableEq

/-- The response: offer list plus the carrier-name dictionary
(`dictionaries.carriers`, a string-keyed record). -/
structure OffersResponse where
  data : List FlightOffer
  carriers : String → Option String

/-- JS `x || y` where `x` is a possibly-`undefined` string: `undefined` and
the empty string are falsy. -/
def jsOrStr (a : Option String) (b : String) : String :=
  match a with
  | none => b
  | some s => if s = "" then b else s

/-- `toLocaleDateString('en-UK')`: `DD/MM/YYYY` with two-digit day and month. -/
def renderUKDate (t : CivilDateTime) : String :=
  pad2 t.date.d ++ "/" ++ pad2 t.date.m ++ "/" ++ renderNat t.date.y

/-- `toLocaleTimeString('en-UK', { hour: '2-digit', minute: '2-digit' })`:
`HH:MM` on a 24-hour clock. -/
def renderUKTime (t : CivilDateTime) : String :=
  pad2 t.hh ++ ":" ++ pad2 t.mi

/-- The leg summary built by `getFlightOptions` for one itinerary, given its
first and last segments (lines 170–199). -/
def mkLeg (carriers : String → Option String) (price : OfferPrice)
    (itin : OfferItinerary) (first last : FlightSegment) : FlightInfo :=
  { price := price.total ++ " " ++ price.currency,
    duration := jsStripPTLower itin.duration,
    airline := jsOrStr (carriers first.carrierCode) first.carrierCode,
    departure :=
      { date := renderUKDate first.departure.instant,
        time := renderUKTime first.departure.instant,
        airport := first.departure.iataCode },
    arrival :=
      { date := renderUKDate last.arrival.instant,
        time := renderUKTime last.arrival.instant,
        airport := last.arrival.iataCode } }

/-- The `try` body of `getFlightOptions` after the offers arrive
(lines 160–201).  `.error ()` models a thrown `TypeError` from a property
access on `undefined` (empty `itineraries` or `segments`); `.ok none`
models falling through to `return undefined` when there are no offers. -/
def getFlightOptionsBody (resp : OffersResponse) : Except Unit (Option FlightBundle) :=
  match resp.data with
  | [] => .ok none
  | bestOffer :: _ =>
    match bestOffer.itineraries[0]? with
    | none => .error ()
    | some outbound =>
      match outbound.segments[0]?, outbound.segments.getLast? with
      | some obFirst, some obLast =>
        match bestOffer.itineraries[1]? with
        | none =>
          .ok (some
            { outbound := some (mkLeg resp.carriers bestOffer.price outbound obFirst obLast),
              ret := none })
        | some returnFlight =>
          match returnFlight.segments[0]?, returnFlight.segments.getLast? with
          | some rfFirst, some rfLast =>
            .ok (some
              { outbound := some (mkLeg resp.carriers bestOffer.price outbound obFirst obLast),
                ret := some (mkLeg resp.carriers bestOffer.price returnFlight rfFirst rfLast) })
          | _, _ => .error ()
      | _, _ => .error ()

/-- `getFlightOptions`: the whole body sits in one `try`; a failed search
(`.error` input, modelling a rejected `flightSearch` promise) or any thrown
error inside the body is caught, logged and turned into `undefined`. -/
def getFlightOptions (searchResult : Except String OffersResponse) : Option FlightBundle :=
  match searchResult with
  | .error _ => none
  | .ok resp =>
    match getFlightOptionsBody resp with
    | .error _ => none
    | .ok r => r

/-! ### Orchestrator context (`index.ts` lines 417–420)

The four values interpolated into the itinerary prompt. -/

/-- The normalizer oracle's output (`output_parsed` of the dates call). -/
structure NormalizedDates where
  arrivalCity : CityInfo
  arrivalDate : String
  returnCity : CityInfo
  returnDate : String
deriving DecidableEq

/-- JS `x || y` on two possibly-`undefined` strings. -/
def jsOrOpt (a b : Option String) : Option String :=
  match a with
  | none => b
  | some s => if s = "" then b else some s

/-- Template-literal interpolation of a possibly-`undefined` string. -/
def jsShowOpt : Option String → String
  | none => "undefined"
  | some s => s

/-- The values the orchestrator passes into the itinerary-generator prompt:
the airports fall back from flight leg to normalizer short name (`||`), the
arrival/return dates are plain optional-chaining reads with a non-null
assertion and no fallback. -/
structure ItineraryCtx where
  arrivalAirport : Option String
  arrivalDate : Option String
  returnAirport : Option String
  returnDate : Option String
deriving DecidableEq

/-- `index.ts` lines 417–420 verbatim. -/
def itineraryCtx (flights : Option FlightBundle) (norm : Option NormalizedDates) :
    ItineraryCtx :=
  { arrivalAirport := jsOrOpt ((flights.bind (·.outbound)).map (fun f => f.arrival.airport))
      (norm.map (fun n => n.arrivalCity.shortName)),
    arrivalDate := (flights.bind (·.outbound)).map (fun f => f.arrival.time),
    returnAirport := jsOrOpt ((flights.bind (·.ret)).map (fun f => f.departure.airport))
      (norm.map (fun n => n.returnCity.shortName)),
    returnDate := (flights.bind (·.ret)).map (fun f => f.departure.time) }

/-- Modelled from the spec: the fallback chain the spec (§4.2 step 3)
claims for the arrival time/date — outbound arrival time, else normalizer
arrival date, else the placeholder "your arrival date".  No such chain
exists in `index.ts`; this definition exists only to compare the claim
against the code. -/
def specArrivalDateChain (flights : Option FlightBundle) (norm : Option NormalizedDates) :
    String :=
  match (flights.bind (·.outbound)).map (fun f => f.arrival.time) with
  | some t => t
  | none =>
    match norm.map (fun n => n.arrivalDate) with
    | some d => d
    | none => "your arrival date"

/-- Modelled from the spec: the claimed fallback chain for the return
time/date — return-leg departure time, else normalizer return date, else
"your departure date". -/
def specReturnDateChain (flights : Option FlightBundle) (norm : Option NormalizedDates) :
    String :=
  match (flights.bind (·.ret)).map (fun f => f.departure.time) with
  | some t => t
  | none =>
    match norm.map (fun n => n.returnDate) with
    | some d => d
    | none => "your departure date"

/-! ### Spec-side definitions and concrete fixtures -/

/-- The single-pass reading of the calendar text-escaping rule: each of the
four special characters is escaped once, any other character is kept. -/
def singlePassEscape (c : Char) : List Char :=
  if c = '\\' then ['\\', '\\']
  else if c = ',' then ['\\', ',']
  else if c = ';' then ['\\', ';']
  else if c = '\n' then ['\\', 'n'] else [c]

/-- The start hour the spec's back-to-back rule prescribes for the activity
at index `i` of a slot: slot base hour plus the sum of the durations of all
preceding activities in that slot. -/
def specSlotStartHour (base : Nat) (acts : List Activity) (i : Nat) : Nat :=
  base + ((acts.take i).map (fun a => a.durationInHours)).sum

/-- In-range civil components with a year of at least 100 (so the JS
two-digit-year remap cannot fire on re-parsing): what any date-time
observed on a real clock satisfies. -/
def validCivilDateTime (t : CivilDateTime) : Prop :=
  100 ≤ t.date.y ∧ 1 ≤ t.date.m ∧ t.date.m ≤ 12 ∧ 1 ≤ t.date.d ∧
    t.date.d ≤ daysInMonth t.date.y t.date.m ∧ t.hh < 24 ∧ t.mi < 60

instance (t : CivilDateTime) : Decidable (validCivilDateTime t) := by
  unfold validCivilDateTime
  exact inferInstance

/-- A fixed generation instant used by concrete test inputs. -/
def dt0 : CivilDateTime := ⟨⟨2024, 12, 15⟩, 12, 0, 0⟩

/-- A concrete clock reading. -/
def clock0 : Clock := ⟨0, dt0⟩

/-- A clock reading one millisecond later. -/
def clock1 : Clock := ⟨1, dt0⟩

/-- Morning slot with unequal durations (2 h then 1 h). -/
def actsC1 : List Activity := [⟨"Museum visit", "Paris", 2⟩, ⟨"River walk", "Paris", 1⟩]

/-- Evening slot whose second activity overflows midnight (18 + 7 = 25). -/
def actsC3 : List Activity := [⟨"Dinner", "Rome", 7⟩, ⟨"Night tour", "Rome", 7⟩]

/-- A concrete normalizer output. -/
def normC2 : NormalizedDates :=
  ⟨⟨"Paris", "CDG"⟩, "2025-03-01", ⟨"Lisbon", "LIS"⟩, "2025-03-08"⟩

/-- A concrete rendered flight leg. -/
def legC2 : FlightInfo :=
  ⟨"450.00 EUR", "2h15m", "Air France",
   ⟨"01/03/2025", "08:00", "LHR"⟩, ⟨"01/03/2025", "10:30", "CDG"⟩⟩

/-- A bundle with both legs present. -/
def bundleC2 : FlightBundle := ⟨some legC2, some legC2⟩

/-- An empty carrier dictionary. -/
def dictsC6 : String → Option String := fun _ => none

/-- A response with zero offers. -/
def respEmpty : OffersResponse := ⟨[], dictsC6⟩

/-- A malformed response: one offer with no itineraries, on which the
adapter body dereferences `undefined`. -/
def respMalformed : OffersResponse := ⟨[⟨[], ⟨"10.00", "EUR"⟩⟩], dictsC6⟩

/-- Outbound segment fixture. -/
def segA : FlightSegment :=
  ⟨⟨"LHR", ⟨⟨2025, 3, 14⟩, 7, 5, 0⟩⟩, ⟨"CDG", ⟨⟨2025, 3, 14⟩, 9, 20, 0⟩⟩, "AF"⟩

/-- Return segment fixture. -/
def segB : FlightSegment :=
  ⟨⟨"CDG", ⟨⟨2025, 3, 21⟩, 17, 45, 0⟩⟩, ⟨"LHR", ⟨⟨2025, 3, 21⟩, 18, 0, 0⟩⟩, "BA"⟩

/-- Outbound itinerary fixture. -/
def itinA : OfferItinerary := ⟨"PT2H15M", [segA]⟩

/-- Return itinerary fixture. -/
def itinB : OfferItinerary := ⟨"PT1H15M", [segB]⟩

/-- A round-trip offer. -/
def offerC7 : FlightOffer := ⟨[itinA, itinB], ⟨"450.00", "EUR"⟩⟩

/-- A response holding the round-trip offer. -/
def respC7 : OffersResponse := ⟨[offerC7], dictsC6⟩

/-- Calendar data with a single morning activity and no flights. -/
def dataC5 : CalendarData :=
  { itinerary :=
      { days := [⟨"2024-12-15", 1, some [⟨"Louvre", "Paris", 3⟩], none, none⟩],
        arrivalCity := ⟨"Paris", "CDG"⟩, returnCity := ⟨"London", "LHR"⟩ },
    city := "Paris", dates := "mid December", flights := none }

/-- Calendar data yielding no events at all. -/
def dataC5e : CalendarData :=
  { itinerary :=
      { days := [⟨"2024-12-15", 1, none, none, none⟩],
        arrivalCity := ⟨"Paris", "CDG"⟩, returnCity := ⟨"London", "LHR"⟩ },
    city := "Paris", dates := "mid December", flights := none }

/-- A parseable return leg. -/
def legC9 : FlightInfo :=
  ⟨"450.00 EUR", "2h", "Air France",
   ⟨"21/03/2025", "17:45", "CDG"⟩, ⟨"21/03/2025", "19:00", "LHR"⟩⟩

/-- Calendar data whose flight bundle has only a return leg. -/
def dataC9 : CalendarData :=
  { itinerary :=
      { days := [], arrivalCity := ⟨"Paris", "CDG"⟩, returnCity := ⟨"London", "LHR"⟩ },
    city := "Paris", dates := "late March", flights := some ⟨none, some legC9⟩ }

/-- An event whose text fields hold all four characters needing escaping. -/
def eventC8 : CalendarEvent :=
  ⟨"uid-0@travel-itinerary", "Mona, Lisa; \\art\nnight", "a\\b,c;d\ne", "Paris, France",
   "20241215T090000Z", "20241215T120000Z"⟩

/-! ### Numeral and string lemmas -/

theorem data_append (s t : String) : (s ++ t).data = s.data ++ t.data := rfl

theorem data_mk (l : List Char) : (String.mk l).data = l := rfl

theorem digitChar_isDigit {d : Nat} (h : d < 10) : (Nat.digitChar d).isDigit = true := by
  interval_cases d <;> decide

theorem digitChar_toNat {d : Nat} (h : d < 10) : (Nat.digitChar d).toNat = 48 + d := by
  interval_cases d <;> decide

theorem isDigit_ne {c sep : Char} (hc : c.isDigit = true) (hsep : sep.isDigit = false) :
    c ≠ sep := by
  intro h
  rw [h, hsep] at hc
  exact Bool.noConfusion hc

theorem digitsToNat_append_singleton (xs : List Char) (c : Char) :
    digitsToNat (xs ++ [c]) = 10 * digitsToNat xs + (c.toNat - 48) := by
  unfold digitsToNat
  rw [List.foldl_append]
  rfl

theorem digitsToNat_natCharsAux : ∀ fuel n, n ≤ fuel →
    digitsToNat (natCharsAux fuel n) = n := by
  intro fuel
  induction fuel with
  | zero =>
    intro n hn
    have : n = 0 := Nat.le_zero.mp hn
    subst this
    rfl
  | succ f ih =>
    intro n hn
    match n with
    | 0 => rfl
    | k + 1 =>
      rw [natCharsAux, digitsToNat_append_singleton,
        ih ((k + 1) / 10) (by
          have := Nat.div_lt_self (Nat.succ_pos k) (by omega : 1 < 10)
          omega),
        digitChar_toNat (Nat.mod_lt _ (by omega))]
      omega

theorem mem_natCharsAux_isDigit : ∀ fuel n c, c ∈ natCharsAux fuel n →
    c.isDigit = true := by
  intro fuel
  induction fuel with
  | zero =>
    intro n c hc
    simp [natCharsAux] at hc
  | succ f ih =>
    intro n c hc
    match n with
    | 0 => simp [natCharsAux] at hc
    | k + 1 =>
      rw [natCharsAux] at hc
      rcases List.mem_append.mp hc with h | h
      · exact ih _ _ h
      · rcases List.mem_singleton.mp h with rfl
        exact digitChar_isDigit (Nat.mod_lt _ (by omega))

theorem digitsToNat_natChars (n : Nat) : digitsToNat (natChars n) = n := by
  unfold natChars
  split
  · subst ‹n = 0›
    rfl
  · exact digitsToNat_natCharsAux n n (Nat.le_refl n)

theorem mem_natChars_isDigit {n : Nat} {c : Char} (hc : c ∈ natChars n) :
    c.isDigit = true := by
  unfold natChars at hc
  split at hc
  · rcases List.mem_singleton.mp hc with rfl
    decide
  · exact mem_natCharsAux_isDigit n n c hc

theorem natChars_ne_nil (n : Nat) : natChars n ≠ [] := by
  unfold natChars
  split
  · exact List.cons_ne_nil _ _
  · match n, ‹¬n = 0› with
    | k + 1, _ =>
      rw [natCharsAux]
      exact List.append_ne_nil_of_right_ne_nil _ (List.cons_ne_nil _ _)

theorem takeWhile_eq_self_of_all {p : Char → Bool} :
    ∀ l : List Char, (∀ c ∈ l, p c = true) → l.takeWhile p = l := by
  intro l
  induction l with
  | nil => intro _; rfl
  | cons c cs ih =>
    intro h
    rw [List.takeWhile_cons, h c (List.mem_cons_self _ _)]
    simpa using ih (fun x hx => h x (List.mem_cons_of_mem _ hx))

theorem parseIntNat_of_all_digits {l : List Char} (hne : l ≠ [])
    (hdig : ∀ c ∈ l, c.isDigit = true) :
    parseIntNat l = some (digitsToNat l) := by
  unfold parseIntNat
  rw [takeWhile_eq_self_of_all l hdig]
  simp [hne]

theorem jsNumberNat_of_all_digits {l : List Char} (hne : l ≠ [])
    (hdig : ∀ c ∈ l, c.isDigit = true) :
    jsNumberNat l = some (digitsToNat l) := by
  unfold jsNumberNat
  rw [if_neg (by simpa using hne), if_pos (by simpa [List.all_eq_true] using hdig)]

theorem digitsToNat_cons_zero (xs : List Char) :
    digitsToNat ('0' :: xs) = digitsToNat xs := by
  unfold digitsToNat
  rw [List.foldl_cons]
  congr 1

theorem parseIntNat_natChars (n : Nat) : parseIntNat (natChars n) = some n := by
  rw [parseIntNat_of_all_digits (natChars_ne_nil n) (fun c hc => mem_natChars_isDigit hc),
    digitsToNat_natChars]

theorem pad2_data (n : Nat) :
    (pad2 n).data = if n < 10 then '0' :: natChars n else natChars n := by
  unfold pad2
  split <;> rfl

theorem mem_pad2_isDigit {n : Nat} {c : Char} (hc : c ∈ (pad2 n).data) :
    c.isDigit = true := by
  rw [pad2_data] at hc
  split at hc
  · rcases List.mem_cons.mp hc with rfl | h
    · decide
    · exact mem_natChars_isDigit h
  · exact mem_natChars_isDigit hc

theorem parseIntNat_pad2 (n : Nat) : parseIntNat (pad2 n).data = some n := by
  rw [pad2_data]
  split
  · rw [parseIntNat_of_all_digits (List.cons_ne_nil _ _)
      (fun c hc => by
        rcases List.mem_cons.mp hc with rfl | h
        · decide
        · exact mem_natChars_isDigit h),
      digitsToNat_cons_zero, digitsToNat_natChars]
  · exact parseIntNat_natChars n

theorem jsNumberNat_pad2 (n : Nat) : jsNumberNat (pad2 n).data = some n := by
  rw [pad2_data]
  split
  · rw [jsNumberNat_of_all_digits (List.cons_ne_nil _ _)
      (fun c hc => by
        rcases List.mem_cons.mp hc with rfl | h
        · decide
        · exact mem_natChars_isDigit h),
      digitsToNat_cons_zero, digitsToNat_natChars]
  · rw [jsNumberNat_of_all_digits (natChars_ne_nil n)
      (fun c hc => mem_natChars_isDigit hc), digitsToNat_natChars]

theorem splitChar_ne_nil (sep : Char) : ∀ l, splitChar sep l ≠ [] := by
  intro l
  induction l with
  | nil => simp [splitChar]
  | cons c cs ih =>
    rw [splitChar]
    split
    · exact List.cons_ne_nil _ _
    · match h : splitChar sep cs with
      | [] => exact absurd h ih
      | x :: t => exact List.cons_ne_nil _ _

theorem splitChar_append_cons {sep : Char} {a : List Char} (h : sep ∉ a) (rest : List Char) :
    splitChar sep (a ++ sep :: rest) = a :: splitChar sep rest := by
  induction a with
  | nil => simp [splitChar]
  | cons c a' ih =>
    have hc : ¬c = sep := fun hh => h (hh ▸ List.mem_cons_self _ _)
    have h' : sep ∉ a' := fun hh => h (List.mem_cons_of_mem _ hh)
    rw [List.cons_append, splitChar, if_neg hc, ih h']

theorem splitChar_of_not_mem {sep : Char} {a : List Char} (h : sep ∉ a) :
    splitChar sep a = [a] := by
  induction a with
  | nil => rfl
  | cons c a' ih =>
    have hc : ¬c = sep := fun hh => h (hh ▸ List.mem_cons_self _ _)
    have h' : sep ∉ a' := fun hh => h (List.mem_cons_of_mem _ hh)
    rw [splitChar, if_neg hc, ih h']

theorem not_mem_pad2 {sep : Char} (hsep : sep.isDigit = false) (n : Nat) :
    sep ∉ (pad2 n).data := by
  intro h
  have := mem_pad2_isDigit h
  rw [hsep] at this
  exact Bool.noConfusion this

theorem not_mem_natChars {sep : Char} (hsep : sep.isDigit = false) (n : Nat) :
    sep ∉ natChars n := by
  intro h
  have := mem_natChars_isDigit h
  rw [hsep] at this
  exact Bool.noConfusion this

theorem renderUKDate_data (t : CivilDateTime) :
    (renderUKDate t).data =
      (pad2 t.date.d).data ++ '/' :: ((pad2 t.date.m).data ++ '/' :: natChars t.date.y) := by
  show ((pad2 t.date.d ++ "/" ++ pad2 t.date.m ++ "/" ++ renderNat t.date.y)).data = _
  rw [data_append, data_append, data_append, data_append]
  show (pad2 t.date.d).data ++ ['/'] ++ (pad2 t.date.m).data ++ ['/'] ++ natChars t.date.y = _
  simp [List.append_assoc]

theorem renderUKTime_data (t : CivilDateTime) :
    (renderUKTime t).data = (pad2 t.hh).data ++ ':' :: (pad2 t.mi).data := by
  show ((pad2 t.hh ++ ":" ++ pad2 t.mi)).data = _
  rw [data_append, data_append]
  show (pad2 t.hh).data ++ [':'] ++ (pad2 t.mi).data = _
  simp [List.append_assoc]

/-- Render-then-parse round trip: `parseDateTime` applied to the UK-style
display strings of a civil instant with a year of at least 100 (where the
constructor's two-digit-year remap is the identity) recovers that instant
to the minute. -/
theorem parseDateTime_renderUK (t : CivilDateTime) (hy : 100 ≤ t.date.y)
    (hm1 : 1 ≤ t.date.m) (hm2 : t.date.m ≤ 12)
    (hd1 : 1 ≤ t.date.d) (hd2 : t.date.d ≤ daysInMonth t.date.y t.date.m)
    (hhh : t.hh < 24) (hmi : t.mi < 60) :
    parseDateTime (renderUKDate t) (renderUKTime t) = some ⟨t.date, t.hh, t.mi, 0⟩ := by
  have hyy : jsFullYear t.date.y = t.date.y := by
    unfold jsFullYear
    rw [if_neg (by omega)]
  unfold parseDateTime
  rw [renderUKDate_data, renderUKTime_data,
    splitChar_append_cons (not_mem_pad2 (by decide) _),
    splitChar_append_cons (not_mem_pad2 (by decide) _),
    splitChar_of_not_mem (not_mem_natChars (by decide) _),
    splitChar_append_cons (not_mem_pad2 (by decide) _),
    splitChar_of_not_mem (not_mem_pad2 (by decide) _)]
  simp only [List.getD_cons_zero, List.getD_cons_succ, parseIntNat_pad2, parseIntNat_natChars,
    hyy]
  rw [if_pos ⟨hm1, hm2, hd1, hd2, hhh, hmi⟩]

/-! ### Escaping lemmas -/

theorem replaceAllChar_append (c : Char) (r : List Char) :
    ∀ xs ys, replaceAllChar c r (xs ++ ys) =
      replaceAllChar c r xs ++ replaceAllChar c r ys := by
  intro xs ys
  induction xs with
  | nil => rfl
  | cons x xs' ih =>
    rw [List.cons_append, replaceAllChar, replaceAllChar, ih, List.append_assoc]

theorem escape_chain_single (c : Char) :
    replaceAllChar '\n' ['\\', 'n']
      (replaceAllChar ';' ['\\', ';']
        (replaceAllChar ',' ['\\', ',']
          (if c = '\\' then ['\\', '\\'] else [c]))) = singlePassEscape c := by
  by_cases h1 : c = '\\'
  · subst h1
    decide
  by_cases h2 : c = ','
  · subst h2
    decide
  by_cases h3 : c = ';'
  · subst h3
    decide
  by_cases h4 : c = '\n'
  · subst h4
    decide
  simp [replaceAllChar, singlePassEscape, h1, h2, h3, h4]

theorem escape_chain (l : List Char) :
    replaceAllChar '\n' ['\\', 'n']
      (replaceAllChar ';' ['\\', ';']
        (replaceAllChar ',' ['\\', ',']
          (replaceAllChar '\\' ['\\', '\\'] l))) = l.flatMap singlePassEscape := by
  induction l with
  | nil => rfl
  | cons c cs ih =>
    rw [replaceAllChar, replaceAllChar_append, replaceAllChar_append, replaceAllChar_append,
      ih, List.flatMap_cons, escape_chain_single]

/-- The four chained global replacements of `escapeICSText` coincide with the
single-pass per-character escape: backslashes produced by the later escapes
are never re-escaped (backslash doubling runs first), and the backslashes it
produces are not themselves comma/semicolon/newline. -/
theorem escapeICSText_eq_singlePass (s : String) :
    escapeICSText s = ⟨s.data.flatMap singlePassEscape⟩ := by
  unfold escapeICSText
  rw [escape_chain]

/-! ### Slot-event indexing -/

theorem slotEvents_getElem? (L E W : String) (B DI : Nat) (DD : CivilDate) (C : Clock) :
    ∀ (acts : List Activity) (idx i : Nat),
      (slotEvents L E W B DI DD C idx acts)[i]? =
        (acts[i]?).map (fun a => mkSlotEvent L E W B DI DD C (idx + i) a) := by
  intro acts
  induction acts with
  | nil =>
    intro idx i
    simp [slotEvents]
  | cons a rest ih =>
    intro idx i
    match i with
    | 0 => simp [slotEvents]
    | j + 1 =>
      rw [slotEvents]
      simp only [List.getElem?_cons_succ]
      rw [ih (idx + 1) j]
      have : idx + 1 + j = idx + (j + 1) := by omega
      rw [this]

/-! ### Flight-adapter lemmas -/

/-- Full characterization of `getFlightOptions` on a non-empty offer list
whose first offer has a well-formed first itinerary. -/
theorem getFlightOptions_firstOffer (resp : OffersResponse) (offer : FlightOffer)
    (rest : List FlightOffer) (ob : OfferItinerary) (obFirst obLast : FlightSegment)
    (hdata : resp.data = offer :: rest)
    (hob : offer.itineraries[0]? = some ob)
    (hf : ob.segments[0]? = some obFirst)
    (hl : ob.segments.getLast? = some obLast) :
    (offer.itineraries[1]? = none →
      getFlightOptions (.ok resp) =
        some { outbound := some (mkLeg resp.carriers offer.price ob obFirst obLast),
               ret := none })
    ∧ (∀ rf rfFirst rfLast, offer.itineraries[1]? = some rf →
        rf.segments[0]? = some rfFirst → rf.segments.getLast? = some rfLast →
        getFlightOptions (.ok resp) =
          some { outbound := some (mkLeg resp.carriers offer.price ob obFirst obLast),
                 ret := some (mkLeg resp.carriers offer.price rf rfFirst rfLast) }) := by
  constructor
  · intro h1
    have hbody : getFlightOptionsBody resp =
        .ok (some { outbound := some (mkLeg resp.carriers offer.price ob obFirst obLast),
                    ret := none }) := by
      unfold getFlightOptionsBody
      rw [hdata]
      simp only [hob, hf, hl, h1]
    show (match getFlightOptionsBody resp with
      | Except.error _ => none
      | Except.ok r => r) = _
    rw [hbody]
  · intro rf rfFirst rfLast h1 h2 h3
    have hbody : getFlightOptionsBody resp =
        .ok (some { outbound := some (mkLeg resp.carriers offer.price ob obFirst obLast),
                    ret := some (mkLeg resp.carriers offer.price rf rfFirst rfLast) }) := by
      unfold getFlightOptionsBody
      rw [hdata]
      simp only [hob, hf, hl, h1, h2, h3]
    show (match getFlightOptionsBody resp with
      | Except.error _ => none
      | Except.ok r => r) = _
    rw [hbody]

/-! ### Day-event lemmas -/

theorem allDayEvents_isSome (clock : Clock) :
    ∀ (days : List ItineraryDay) (i : Nat),
      (∀ day ∈ days, (parseDayDate day.dayDate).isSome) →
      ∃ evs, allDayEvents clock i days = some evs := by
  intro days
  induction days with
  | nil => exact fun i _ => ⟨[], rfl⟩
  | cons day rest ih =>
    intro i h
    have hsome := h day (List.mem_cons_self _ _)
    match hp : parseDayDate day.dayDate with
    | none =>
      rw [hp] at hsome
      simp at hsome
    | some dd =>
      obtain ⟨evsRest, hrest⟩ := ih (i + 1) (fun x hx => h x (List.mem_cons_of_mem _ hx))
      have hde : ∃ evs0, dayEvents clock i day = some evs0 := by
        rw [dayEvents, hp]
        exact ⟨_, rfl⟩
      obtain ⟨evs0, hde⟩ := hde
      refine ⟨evs0 ++ evsRest, ?_⟩
      show (dayEvents clock i day).bind _ = _
      rw [hde]
      show (allDayEvents clock (i + 1) rest).bind _ = _
      rw [hrest]
      rfl

theorem allDayEvents_empty_slots (c1 c2 : Clock) :
    ∀ (days : List ItineraryDay) (i : Nat),
      (∀ day ∈ days, day.morning.getD [] = [] ∧ day.afternoon.getD [] = [] ∧
        day.evening.getD [] = []) →
      allDayEvents c1 i days = allDayEvents c2 i days ∧
        (∀ evs, allDayEvents c1 i days = some evs → evs = []) := by
  intro days
  induction days with
  | nil =>
    intro i _
    refine ⟨rfl, fun evs h => ?_⟩
    exact (Option.some_inj.mp h).symm
  | cons day rest ih =>
    intro i h
    obtain ⟨hm, ha, he⟩ := h day (List.mem_cons_self _ _)
    have hrest := ih (i + 1) (fun x hx => h x (List.mem_cons_of_mem _ hx))
    have hday : ∀ c : Clock, dayEvents c i day =
        (parseDayDate day.dayDate).bind (fun _ => some []) := by
      intro c
      simp only [dayEvents, hm, ha, he, slotEvents, List.nil_append, List.append_nil]
      rfl
    cases hp : parseDayDate day.dayDate with
    | none =>
      have e1 : allDayEvents c1 i (day :: rest) = none := by
        show (dayEvents c1 i day).bind _ = none
        rw [hday c1, hp]
        rfl
      have e2 : allDayEvents c2 i (day :: rest) = none := by
        show (dayEvents c2 i day).bind _ = none
        rw [hday c2, hp]
        rfl
      rw [e1, e2]
      exact ⟨rfl, fun evs hevs => nomatch hevs⟩
    | some dd =>
      constructor
      · show (dayEvents c1 i day).bind _ = (dayEvents c2 i day).bind _
        rw [hday c1, hday c2, hp]
        show (allDayEvents c1 (i + 1) rest).bind _ = (allDayEvents c2 (i + 1) rest).bind _
        rw [hrest.1]
      · intro evs hevs
        revert hevs
        show (dayEvents c1 i day).bind _ = some evs → evs = []
        rw [hday c1, hp]
        show (allDayEvents c1 (i + 1) rest).bind _ = some evs → evs = []
        cases hr : allDayEvents c1 (i + 1) rest with
        | none => exact fun hevs => nomatch hevs
        | some evsRest =>
          intro hevs
          have hnil : evsRest = [] := hrest.2 evsRest hr
          subst hnil
          simpa using (Option.some_inj.mp hevs).symm

theorem eventsOf_of_no_flights (data : CalendarData) (c : Clock)
    (hfl : data.flights = none) :
    eventsOf data c = allDayEvents c 0 data.itinerary.days := by
  unfold eventsOf
  rw [hfl]
  show (allDayEvents c 0 data.itinerary.days).bind (fun de => some ([] ++ de)) = _
  cases allDayEvents c 0 data.itinerary.days with
  | none => rfl
  | some evs => simp

/-! ### Claim theorems -/

/-- C1: the claim says the Nth activity of a slot starts at the slot base
hour plus the sum of the durations of all preceding activities in the slot.
The code instead computes `slotBase + index * durationInHours` with the
activity's own duration (`CalendarGenerator.ts` line 102): on a morning slot
with durations 2 h then 1 h the second event starts at 10:00, while the
claimed back-to-back rule puts it at 11:00.  The code also makes the second
event overlap the first, so the spec's rule is the evident intent and the
code is a slip. -/
theorem morning_second_activity_start_mismatch :
    ((slotEvents "morning" "🌅" "Morning" 9 0 ⟨2024, 12, 15⟩ clock0 0 actsC1).map
        (fun e => e.dtstart)) = ["20241215T090000Z", "20241215T100000Z"]
    ∧ specSlotStartHour 9 actsC1 1 = 11
    ∧ formatDateForICS (jsSetHoursFrom ⟨2024, 12, 15⟩ (specSlotStartHour 9 actsC1 1)) =
        "20241215T110000Z"
    ∧ ("20241215T100000Z" : String) ≠ "20241215T110000Z" := by
  decide

/-- C2 (counterexample): with no flights and a normalizer result present,
the value interpolated for the arrival date is the string "undefined", not
the normalizer's arrival date and not the placeholder the claim describes;
likewise for the return date. -/
theorem itinerary_ctx_fallback_counterexample :
    jsShowOpt ((itineraryCtx none (some normC2)).arrivalDate) = "undefined"
    ∧ specArrivalDateChain none (some normC2) = "2025-03-01"
    ∧ jsShowOpt ((itineraryCtx none (some normC2)).arrivalDate) ≠
        specArrivalDateChain none (some normC2)
    ∧ jsShowOpt ((itineraryCtx none (some normC2)).returnDate) ≠
        specReturnDateChain none (some normC2) := by
  decide

/-- C2 (amended): the arrival time passed into the itinerary-generator
context is the outbound leg's arrival time when an outbound flight is
present and `undefined` otherwise — there is no fallback to the
normalizer's date nor to a placeholder string; symmetrically the return
time is the return leg's departure time or `undefined`
(`index.ts` lines 418 and 420). -/
theorem itinerary_ctx_dates_from_flights_only (flights : Option FlightBundle)
    (norm : Option NormalizedDates) :
    ((∀ fb ob, flights = some fb → fb.outbound = some ob →
        (itineraryCtx flights norm).arrivalDate = some ob.arrival.time)
      ∧ (flights.bind (fun b => b.outbound) = none →
        (itineraryCtx flights norm).arrivalDate = none))
    ∧ ((∀ fb rl, flights = some fb → fb.ret = some rl →
        (itineraryCtx flights norm).returnDate = some rl.departure.time)
      ∧ (flights.bind (fun b => b.ret) = none →
        (itineraryCtx flights norm).returnDate = none)) := by
  refine ⟨⟨?_, ?_⟩, ?_, ?_⟩
  · intro fb ob h1 h2
    subst h1
    simp [itineraryCtx, h2]
  · intro h
    simp [itineraryCtx, h]
  · intro fb rl h1 h2
    subst h1
    simp [itineraryCtx, h2]
  · intro h
    simp [itineraryCtx, h]

/-- C2 witness: the amended statement evaluated on concrete inputs. -/
theorem itinerary_ctx_dates_from_flights_only_witness :
    (itineraryCtx (some bundleC2) (some normC2)).arrivalDate = some "10:30"
    ∧ (itineraryCtx none (some normC2)).arrivalDate = none :=
  ⟨(itinerary_ctx_dates_from_flights_only (some bundleC2) (some normC2)).1.1
      bundleC2 legC2 rfl rfl,
   (itinerary_ctx_dates_from_flights_only none (some normC2)).1.2 rfl⟩

/-- C3 (counterexample): an evening slot of two 7-hour activities puts the
second event's computed start at hour 25; the emitted `DTSTART` lies on
2024-12-16, the day after the itinerary day 2024-12-15 — the event does not
stay anchored to the same day's date. -/
theorem slot_overflow_counterexample :
    ((slotEvents "evening" "🌙" "Evening" 18 0 ⟨2024, 12, 15⟩ clock0 0 actsC3).map
        (fun e => e.dtstart)) = ["20241215T180000Z", "20241216T010000Z"]
    ∧ (jsSetHoursFrom ⟨2024, 12, 15⟩ (18 + 1 * 7)).date = ⟨2024, 12, 16⟩
    ∧ (⟨2024, 12, 16⟩ : CivilDate) ≠ ⟨2024, 12, 15⟩ := by
  decide

/-- C3 (amended): the generator does not clamp an overflowing start hour —
the event keeps the full computed hour count — but date-time normalization
carries it into a following calendar day: the emitted start is
`addDaysCivil day (h / 24)` at hour `h % 24`, a strictly later date whenever
`h ≥ 24`. -/
theorem slot_overflow_not_clamped_rolls_forward (L E W : String) (B DI : Nat)
    (DD : CivilDate) (C : Clock) (acts : List Activity) (i : Nat) (a : Activity)
    (ha : acts[i]? = some a) :
    ∃ ev, (slotEvents L E W B DI DD C 0 acts)[i]? = some ev ∧
      ev.dtstart = formatDateForICS
        ⟨addDaysCivil DD ((B + i * a.durationInHours) / 24),
         (B + i * a.durationInHours) % 24, 0, 0⟩ ∧
      (24 ≤ B + i * a.durationInHours →
        civilLt DD (addDaysCivil DD ((B + i * a.durationInHours) / 24))) := by
  refine ⟨mkSlotEvent L E W B DI DD C i a, ?_, rfl, ?_⟩
  · rw [slotEvents_getElem?, ha]
    simp
  · intro h24
    exact civilLt_addDaysCivil DD _ (Nat.div_pos h24 (by omega))

/-- C3 witness: the amended statement evaluated on the concrete overflowing
evening slot. -/
theorem slot_overflow_not_clamped_rolls_forward_witness :
    ∃ ev, (slotEvents "evening" "🌙" "Evening" 18 0 ⟨2024, 12, 15⟩ clock0 0 actsC3)[1]? =
        some ev ∧
      ev.dtstart = formatDateForICS
        ⟨addDaysCivil ⟨2024, 12, 15⟩ ((18 + 1 * 7) / 24), (18 + 1 * 7) % 24, 0, 0⟩ ∧
      (24 ≤ 18 + 1 * 7 →
        civilLt ⟨2024, 12, 15⟩ (addDaysCivil ⟨2024, 12, 15⟩ ((18 + 1 * 7) / 24))) :=
  slot_overflow_not_clamped_rolls_forward "evening" "🌙" "Evening" 18 0
    ⟨2024, 12, 15⟩ clock0 actsC3 1 ⟨"Night tour", "Rome", 7⟩ (by decide)

/-- C4: for every flight leg the adapter renders with the UK-style display
date and time of a valid instant (in-range components, year ≥ 100 so the
JS constructor's two-digit-year remap is the identity), `parseDateTime`
applied to the rendered departure (resp. arrival) strings reproduces the
original instant to the minute. -/
theorem flight_leg_render_parse_roundtrip (carriers : String → Option String)
    (price : OfferPrice) (itin : OfferItinerary) (first last : FlightSegment)
    (hdep : validCivilDateTime first.departure.instant)
    (harr : validCivilDateTime last.arrival.instant) :
    parseDateTime (mkLeg carriers price itin first last).departure.date
        (mkLeg carriers price itin first last).departure.time =
      some ⟨first.departure.instant.date, first.departure.instant.hh,
            first.departure.instant.mi, 0⟩
    ∧ parseDateTime (mkLeg carriers price itin first last).arrival.date
        (mkLeg carriers price itin first last).arrival.time =
      some ⟨last.arrival.instant.date, last.arrival.instant.hh,
            last.arrival.instant.mi, 0⟩ := by
  unfold validCivilDateTime at hdep harr
  obtain ⟨h0, h1, h2, h3, h4, h5, h6⟩ := hdep
  obtain ⟨g0, g1, g2, g3, g4, g5, g6⟩ := harr
  exact ⟨parseDateTime_renderUK _ h0 h1 h2 h3 h4 h5 h6,
         parseDateTime_renderUK _ g0 g1 g2 g3 g4 g5 g6⟩

/-- C4 witness: the round trip evaluated on a concrete leg. -/
theorem flight_leg_render_parse_roundtrip_witness :
    parseDateTime (mkLeg dictsC6 ⟨"450.00", "EUR"⟩ itinA segA segA).departure.date
        (mkLeg dictsC6 ⟨"450.00", "EUR"⟩ itinA segA segA).departure.time =
      some ⟨⟨2025, 3, 14⟩, 7, 5, 0⟩
    ∧ parseDateTime (mkLeg dictsC6 ⟨"450.00", "EUR"⟩ itinA segA segA).arrival.date
        (mkLeg dictsC6 ⟨"450.00", "EUR"⟩ itinA segA segA).arrival.time =
      some ⟨⟨2025, 3, 14⟩, 9, 20, 0⟩ :=
  flight_leg_render_parse_roundtrip dictsC6 ⟨"450.00", "EUR"⟩ itinA segA segA
    (by decide) (by decide)

set_option maxHeartbeats 2000000 in
/-- C5 (counterexample): on the same `CalendarData`, two invocations one
millisecond apart produce different documents — the event uid embeds
`Date.now()` (and `DTSTAMP` the generation instant), so `generateICSContent`
is not a pure function of its input alone. -/
theorem generate_ics_time_dependent :
    generateICSContent dataC5 clock0 ≠ generateICSContent dataC5 clock1 := by
  decide

/-- C5 (amended): `generateICSContent` is deterministic in the pair (input,
invocation clock); the clock reaches the output only through the uid and
`DTSTAMP` of emitted events, so on inputs that emit no events the document
is independent of the invocation time, while any emitted event makes the
output time-dependent (see the counterexample). -/
theorem generate_ics_clock_blind_without_events (data : CalendarData) (c1 c2 : Clock)
    (hfl : data.flights = none)
    (hdays : ∀ day ∈ data.itinerary.days, day.morning.getD [] = [] ∧
      day.afternoon.getD [] = [] ∧ day.evening.getD [] = []) :
    generateICSContent data c1 = generateICSContent data c2 := by
  have e1 := eventsOf_of_no_flights data c1 hfl
  have e2 := eventsOf_of_no_flights data c2 hfl
  have h := allDayEvents_empty_slots c1 c2 data.itinerary.days 0 hdays
  unfold generateICSContent
  rw [e1, e2, ← h.1]
  cases ha : allDayEvents c1 0 data.itinerary.days with
  | none => simp
  | some evs =>
    have : evs = [] := h.2 evs ha
    subst this
    simp

/-- C5 witness: a no-event input generated at two different clock readings. -/
theorem generate_ics_clock_blind_without_events_witness :
    generateICSContent dataC5e clock0 = generateICSContent dataC5e clock1 :=
  generate_ics_clock_blind_without_events dataC5e clock0 clock1 rfl (by decide)

/-- C6: every failure of the flight-offer source is absorbed inside the
adapter: a rejected search (`.error`), an empty offer list, and any thrown
`TypeError` while decomposing a malformed response all make
`getFlightOptions` return `undefined` (`none`) rather than propagate. -/
theorem flight_search_errors_swallowed :
    (∀ e : String, getFlightOptions (.error e) = none)
    ∧ (∀ resp : OffersResponse, resp.data = [] → getFlightOptions (.ok resp) = none)
    ∧ (∀ resp : OffersResponse, getFlightOptionsBody resp = .error () →
        getFlightOptions (.ok resp) = none) := by
  refine ⟨fun e => rfl, fun resp h => ?_, fun resp h => ?_⟩
  · have hbody : getFlightOptionsBody resp = .ok none := by
      unfold getFlightOptionsBody
      rw [h]
    show (match getFlightOptionsBody resp with
      | Except.error _ => none
      | Except.ok r => r) = none
    rw [hbody]
  · show (match getFlightOptionsBody resp with
      | Except.error _ => none
      | Except.ok r => r) = none
    rw [h]

/-- C6 witness: the three error shapes on concrete inputs. -/
theorem flight_search_errors_swallowed_witness :
    getFlightOptions (.error "network down") = none
    ∧ getFlightOptions (.ok respEmpty) = none
    ∧ getFlightOptions (.ok respMalformed) = none :=
  ⟨flight_search_errors_swallowed.1 "network down",
   flight_search_errors_swallowed.2.1 respEmpty rfl,
   flight_search_errors_swallowed.2.2 respMalformed rfl⟩

/-- C7: with at least one offer, the adapter uses the first offer in
response order (the remaining offers are irrelevant), its first itinerary
becomes the outbound leg, its second itinerary (when present) the return
leg, and a one-itinerary offer yields `return = undefined`. -/
theorem first_offer_selection_and_decomposition (resp : OffersResponse)
    (offer : FlightOffer) (rest : List FlightOffer) (ob : OfferItinerary)
    (obFirst obLast : FlightSegment)
    (hdata : resp.data = offer :: rest)
    (hob : offer.itineraries[0]? = some ob)
    (hf : ob.segments[0]? = some obFirst)
    (hl : ob.segments.getLast? = some obLast) :
    (offer.itineraries[1]? = none →
      getFlightOptions (.ok resp) =
        some { outbound := some (mkLeg resp.carriers offer.price ob obFirst obLast),
               ret := none })
    ∧ (∀ rf rfFirst rfLast, offer.itineraries[1]? = some rf →
        rf.segments[0]? = some rfFirst → rf.segments.getLast? = some rfLast →
        getFlightOptions (.ok resp) =
          some { outbound := some (mkLeg resp.carriers offer.price ob obFirst obLast),
                 ret := some (mkLeg resp.carriers offer.price rf rfFirst rfLast) }) :=
  getFlightOptions_firstOffer resp offer rest ob obFirst obLast hdata hob hf hl

/-- C7 witness: the round-trip fixture decomposes into outbound and return
legs built from the first offer's two itineraries. -/
theorem first_offer_selection_and_decomposition_witness :
    getFlightOptions (.ok respC7) =
      some { outbound := some (mkLeg respC7.carriers offerC7.price itinA segA segA),
             ret := some (mkLeg respC7.carriers offerC7.price itinB segB segB) } :=
  (first_offer_selection_and_decomposition respC7 offerC7 [] itinA segA segA
      rfl rfl rfl rfl).2 itinB segB segB rfl rfl rfl

/-- C8: the escaped summary, description, and location each appear as their
own independently escaped block of the serialized event, and on any string
containing a backslash, a comma, a semicolon and a newline the chained
replacements of `escapeICSText` act as the single-pass per-character escape:
all four classes are escaped and the backslashes introduced by the escapes
are never re-escaped. -/
theorem escaping_per_field_and_single_pass (clock : Clock) (e : CalendarEvent)
    (s : String)
    (h1 : '\\' ∈ s.data) (h2 : ',' ∈ s.data) (h3 : ';' ∈ s.data) (h4 : '\n' ∈ s.data) :
    ((escapeICSText e.summary).data <:+: (serializeEvent clock e).data
      ∧ (escapeICSText e.description).data <:+: (serializeEvent clock e).data
      ∧ (escapeICSText e.location).data <:+: (serializeEvent clock e).data)
    ∧ escapeICSText s = ⟨s.data.flatMap singlePassEscape⟩ := by
  refine ⟨⟨?_, ?_, ?_⟩, escapeICSText_eq_singlePass s⟩
  · exact ⟨("BEGIN:VEVENT\n" ++ "UID:" ++ e.uid ++ "\n" ++ "DTSTART:" ++ e.dtstart ++
        "\n" ++ "DTEND:" ++ e.dtend ++ "\n" ++ "SUMMARY:").data,
      ("\n" ++ "DESCRIPTION:" ++ escapeICSText e.description ++ "\n" ++ "LOCATION:" ++
        escapeICSText e.location ++ "\n" ++ "DTSTAMP:" ++ formatDateForICS clock.now ++
        "\n" ++ "END:VEVENT\n").data,
      by simp [serializeEvent, data_append, List.append_assoc]⟩
  · exact ⟨("BEGIN:VEVENT\n" ++ "UID:" ++ e.uid ++ "\n" ++ "DTSTART:" ++ e.dtstart ++
        "\n" ++ "DTEND:" ++ e.dtend ++ "\n" ++ "SUMMARY:" ++ escapeICSText e.summary ++
        "\n" ++ "DESCRIPTION:").data,
      ("\n" ++ "LOCATION:" ++ escapeICSText e.location ++ "\n" ++ "DTSTAMP:" ++
        formatDateForICS clock.now ++ "\n" ++ "END:VEVENT\n").data,
      by simp [serializeEvent, data_append, List.append_assoc]⟩
  · exact ⟨("BEGIN:VEVENT\n" ++ "UID:" ++ e.uid ++ "\n" ++ "DTSTART:" ++ e.dtstart ++
        "\n" ++ "DTEND:" ++ e.dtend ++ "\n" ++ "SUMMARY:" ++ escapeICSText e.summary ++
        "\n" ++ "DESCRIPTION:" ++ escapeICSText e.description ++ "\n" ++ "LOCATION:").data,
      ("\n" ++ "DTSTAMP:" ++ formatDateForICS clock.now ++ "\n" ++ "END:VEVENT\n").data,
      by simp [serializeEvent, data_append, List.append_assoc]⟩

/-- C8 witness: the statement evaluated on a concrete event and a concrete
string containing all four escapable characters. -/
theorem escaping_per_field_and_single_pass_witness :
    (((escapeICSText eventC8.summary).data <:+: (serializeEvent clock0 eventC8).data
      ∧ (escapeICSText eventC8.description).data <:+: (serializeEvent clock0 eventC8).data
      ∧ (escapeICSText eventC8.location).data <:+: (serializeEvent clock0 eventC8).data)
    ∧ escapeICSText "a\\b,c;d\ne" =
        ⟨("a\\b,c;d\ne" : String).data.flatMap singlePassEscape⟩) :=
  escaping_per_field_and_single_pass clock0 eventC8 "a\\b,c;d\ne"
    (by decide) (by decide) (by decide) (by decide)

/-- C9: a flight bundle with only a return leg (outbound absent) makes the
generator emit exactly one flight event, carrying the `return-flight-` uid,
and whole-document generation succeeds (does not throw). -/
theorem return_only_bundle_one_flight_event (data : CalendarData) (clock : Clock)
    (leg : FlightInfo) (dep arr : CivilDateTime)
    (hfl : data.flights = some ⟨none, some leg⟩)
    (hdep : parseDateTime leg.departure.date leg.departure.time = some dep)
    (harr : parseDateTime leg.arrival.date leg.arrival.time = some arr)
    (hdays : ∀ day ∈ data.itinerary.days, (parseDayDate day.dayDate).isSome) :
    ∃ ev, buildFlightEvents clock data.city data.flights = some [ev]
      ∧ ev.uid = "return-flight-" ++ renderNat clock.nowMs ++ "@travel-itinerary"
      ∧ ∃ doc, generateICSContent data clock = some doc := by
  have hev : ∃ ev, flightEvent clock data.city false leg = some ev ∧
      ev.uid = "return-flight-" ++ renderNat clock.nowMs ++ "@travel-itinerary" := by
    unfold flightEvent
    rw [hdep, harr]
    exact ⟨_, rfl, rfl⟩
  obtain ⟨ev, hev, huid⟩ := hev
  have hbf : buildFlightEvents clock data.city data.flights = some [ev] := by
    rw [hfl]
    simp only [buildFlightEvents, hev]
    rfl
  refine ⟨ev, hbf, huid, ?_⟩
  obtain ⟨devs, hdevs⟩ := allDayEvents_isSome clock data.itinerary.days 0 hdays
  refine ⟨icsHeader ++ String.join (([ev] ++ devs).map (serializeEvent clock)) ++
    "END:VCALENDAR", ?_⟩
  unfold generateICSContent eventsOf
  rw [hbf, hdevs]
  rfl

/-- C9 witness: the statement evaluated on a concrete return-only bundle. -/
theorem return_only_bundle_one_flight_event_witness :
    ∃ ev, buildFlightEvents clock0 dataC9.city dataC9.flights = some [ev]
      ∧ ev.uid = "return-flight-" ++ renderNat clock0.nowMs ++ "@travel-itinerary"
      ∧ ∃ doc, generateICSContent dataC9 clock0 = some doc :=
  return_only_bundle_one_flight_event dataC9 clock0 legC9
    ⟨⟨2025, 3, 21⟩, 17, 45, 0⟩ ⟨⟨2025, 3, 21⟩, 19, 0, 0⟩ rfl
    (by decide) (by decide) (by decide)

/-- C10: when an offer decomposes into both an outbound and a return leg,
the two legs carry the identical price string — the whole offer's total
amount concatenated with its currency — so the per-leg price never reflects
a per-leg fare. -/
theorem both_legs_price_is_offer_total (resp : OffersResponse) (offer : FlightOffer)
    (rest : List FlightOffer) (ob rf : OfferItinerary)
    (obFirst obLast rfFirst rfLast : FlightSegment)
    (hdata : resp.data = offer :: rest)
    (hob : offer.itineraries[0]? = some ob)
    (hf : ob.segments[0]? = some obFirst)
    (hl : ob.segments.getLast? = some obLast)
    (hrf : offer.itineraries[1]? = some rf)
    (hf2 : rf.segments[0]? = some rfFirst)
    (hl2 : rf.segments.getLast? = some rfLast) :
    ∃ lo lr, getFlightOptions (.ok resp) = some ⟨some lo, some lr⟩
      ∧ lo.price = offer.price.total ++ " " ++ offer.price.currency
      ∧ lr.price = lo.price := by
  have h := (getFlightOptions_firstOffer resp offer rest ob obFirst obLast
    hdata hob hf hl).2 rf rfFirst rfLast hrf hf2 hl2
  exact ⟨_, _, h, rfl, rfl⟩

/-- C10 witness: both legs of the concrete round-trip fixture carry the
offer's total price string. -/
theorem both_legs_price_is_offer_total_witness :
    ∃ lo lr, getFlightOptions (.ok respC7) = some ⟨some lo, some lr⟩
      ∧ lo.price = offerC7.price.total ++ " " ++ offerC7.price.currency
      ∧ lr.price = lo.price :=
  both_legs_price_is_offer_total respC7 offerC7 [] itinA itinB segA segA segB segB
    rfl rfl rfl rfl rfl rfl rfl

end Travel
